import Mathlib

/-!
Shallow embedding of `src/voibot/chatbot.py` (class `VoiAssistant`).

External collaborators (OpenAI calls, the LangChain retrieval chain, PDF
download/parse) are not part of the source under `src/`; they are modelled
as oracle function parameters (`classify`, `ragAnswer`, `roleReply`,
`fetchOk`).  Python's dynamic values are modelled by `PyVal` (only the
shapes the program actually produces: strings and string-to-string dicts);
Python dicts become association lists in insertion order.
-/

namespace Voibot

/-- A Python runtime value as it appears in this program: either a string
or a dict mapping strings to strings (the shape of the user supplied
`dont_know_response` mapping). -/
inductive PyVal where
  | str (s : String)
  | dict (entries : List (String × String))
deriving Repr, DecidableEq

/-- Python truthiness for the values of `PyVal` (empty string and empty
dict are falsy). -/
def truthy : PyVal → Bool
  | .str s => !s.isEmpty
  | .dict m => !m.isEmpty

/-- Discriminator: is this value a string? -/
def isStr : PyVal → Bool
  | .str _ => true
  | .dict _ => false

/-- A LangChain chat message: `HumanMessage` or `AIMessage`, with its
`content`.  The buffer memory is a chronological list of these. -/
inductive Message where
  | human (content : PyVal)
  | ai (content : PyVal)
deriving Repr, DecidableEq

/-- Content of the first `AIMessage` in the list, if any (the Python code
walks `reversed(chat_history)`, so this is applied to the reversed log). -/
def firstAI : List Message → Option PyVal
  | [] => none
  | .ai c :: _ => some c
  | .human _ :: rest => firstAI rest

/-- Content of the first `HumanMessage` in the list, if any. -/
def firstHuman : List Message → Option PyVal
  | [] => none
  | .human c :: _ => some c
  | .ai _ :: rest => firstHuman rest

/-- `VoiAssistant.get_most_recent_response`: scan the history backwards for
the newest `AIMessage`; on an empty history (or none found) return the
sentinel error string. -/
def get_most_recent_response (mem : List Message) : PyVal :=
  (firstAI mem.reverse).getD
    (.str "Error: Most recent response could not be retrieved")

/-- `VoiAssistant.get_most_recent_query`: scan the history backwards for
the newest `HumanMessage`; on an empty history (or none found) return the
sentinel error string. -/
def get_most_recent_query (mem : List Message) : PyVal :=
  (firstHuman mem.reverse).getD
    (.str "Error: Most recent query could not be retrieved")

/-- Does the character list `s` start with `pat`? -/
def listStartsWith : List Char → List Char → Bool
  | _, [] => true
  | [], _ :: _ => false
  | a :: as, b :: bs => a == b && listStartsWith as bs

/-- Does the character list `s` contain `pat` as a contiguous sublist?
(Python's `pat in s`.) -/
def listContains (s pat : List Char) : Bool :=
  match s with
  | [] => pat.isEmpty
  | _ :: rest => listStartsWith s pat || listContains rest pat

/-- Python's `pat in s` on strings. -/
def strContains (s pat : String) : Bool :=
  listContains s.data pat.data

/-- Fuelled worker for `pyReplace`: replace non-overlapping occurrences of
`pat` left to right (the fuel only makes the recursion structural; it is
always ample). -/
def listReplaceAux : Nat → List Char → List Char → List Char → List Char
  | 0, s, _, _ => s
  | _ + 1, [], _, _ => []
  | n + 1, c :: rest, pat, rep =>
    if listStartsWith (c :: rest) pat && !pat.isEmpty then
      rep ++ listReplaceAux n ((c :: rest).drop pat.length) pat rep
    else
      c :: listReplaceAux n rest pat rep

/-- Python's `s.replace(pat, rep)` for a non-empty `pat`: every
non-overlapping occurrence, scanned left to right. -/
def pyReplace (s pat rep : String) : String :=
  ⟨listReplaceAux (s.data.length + 1) s.data pat.data rep.data⟩

/-- The `{most_recent_response}` placeholder token. -/
def respTok : String := "\x7bmost_recent_response\x7d"

/-- The `{most_recent_query}` placeholder token. -/
def qryTok : String := "\x7bmost_recent_query\x7d"

/-- The `pdf_urls` constructor argument: a dict segment-name → url list, a
bare url list, or a single url. -/
inductive PdfUrlsArg where
  | dict (m : List (String × List String))
  | list (l : List String)
  | single (u : String)

/-- The `pdf_urls` normalization done in `VoiAssistant.__init__`: a
non-dict argument becomes the single segment "unified". -/
def normalize_pdf_urls : PdfUrlsArg → List (String × List String)
  | .dict m => m
  | .list l => [("unified", l)]
  | .single u => [("unified", [u])]

/-- The state of a `VoiAssistant` instance (configuration fields plus the
mutable `indices` and `memory`). -/
structure VoiAssistant where
  role : String
  intents : List String
  replies : List (String × String)
  segment_assignments : List (String × String)
  dont_know_response : PyVal
  pdf_urls : List (String × List String)
  indices : List String
  memory : List Message
deriving Repr, DecidableEq

/-- `VoiAssistant.__init__`: normalizes `pdf_urls`, and replaces a missing
or falsy `dont_know_response` by the empty dict; `indices` and the buffer
memory start empty. -/
def mkVoiAssistant (role : String) (intents : List String)
    (replies segment_assignments : List (String × String))
    (pdf_urls : PdfUrlsArg) (dkr : Option PyVal) : VoiAssistant :=
  { role := role
    intents := intents
    replies := replies
    segment_assignments := segment_assignments
    dont_know_response :=
      match dkr with
      | some v => if truthy v then v else .dict []
      | none => .dict []
    pdf_urls := normalize_pdf_urls pdf_urls
    indices := []
    memory := [] }

/-- `self.memory.save_context({"question": query}, {"response": result})`:
append a `HumanMessage` for the query and an `AIMessage` for the result. -/
def saveContext (a : VoiAssistant) (query : String) (result : PyVal) :
    VoiAssistant :=
  { a with memory := a.memory ++ [.human (.str query), .ai result] }

/-- `VoiAssistant.initialize_assistant`, embedded over the oracle
`fetchOk` (does downloading/parsing the given url succeed?).  The Python
`try` wraps the whole segment loop: the first failing url raises, the
exception aborts the remaining iterations, and the `except` clause catches
it (prints, does not propagate), leaving `indices` with exactly the
segments completed before the failure.  Building a segment's index from
its docs is external (Chroma) and modelled as always succeeding. -/
def init_assistant (fetchOk : String → Bool) :
    List (String × List String) → List String → List String
  | [], built => built
  | (seg, urls) :: rest, built =>
    if urls.all fetchOk then init_assistant fetchOk rest (built ++ [seg])
    else built

/-- `VoiAssistant.get_response`, embedded over the oracles `classify` (the
classification call `openaiAPI(prompt_func(query, ...))`), `ragAnswer`
(the `ConversationalRetrievalChain.run` answer for a segment and query;
the chain reads the history, modelled per the spec as a read-only view),
and `roleReply` (the `openaiReply` call).  `.error` models a raised
exception; `.ok` carries the returned value and the updated state.  Note
the missing-segment branch returns early, skipping `save_context`. -/
def get_response (classify : String → String)
    (ragAnswer : String → String → String) (roleReply : String → String)
    (a : VoiAssistant) (query : String) :
    Except String (PyVal × VoiAssistant) :=
  if a.indices.isEmpty then
    .error "Assistant is not initialized."
  else
    let category := classify query
    if a.intents.contains category then
      if a.replies.lookup category == some "RAG" then
        let segment := (a.segment_assignments.lookup category).getD "unified"
        if !(a.indices.contains segment) then
          .ok (.str ("Error: No database found for segment \x27" ++
                     segment ++ "\x27"), a)
        else
          let answer := ragAnswer segment query
          let result : PyVal :=
            if answer == "I don\x27t know" || answer == "I don\x27t know." then
              a.dont_know_response
            else
              .str answer
          .ok (result, saveContext a query result)
      else if a.replies.lookup category == some "role_based_llm_reply" then
        let result := PyVal.str (roleReply query)
        .ok (result, saveContext a query result)
      else
        let template :=
          (a.replies.lookup category).getD "I\x27m not sure how to respond to that."
        if strContains template respTok then
          match get_most_recent_response a.memory with
          | .str p =>
            let result := PyVal.str (pyReplace template respTok p)
            .ok (result, saveContext a query result)
          | .dict _ => .error "TypeError: replace() argument 2 must be str"
        else if strContains template qryTok then
          match get_most_recent_query a.memory with
          | .str p =>
            let result := PyVal.str (pyReplace template qryTok p)
            .ok (result, saveContext a query result)
          | .dict _ => .error "TypeError: replace() argument 2 must be str"
        else
          let result := PyVal.str template
          .ok (result, saveContext a query result)
    else
      let result := PyVal.str "Unfortunately, I am unable to help you with that."
      .ok (result, saveContext a query result)

/-- Does this call hit the early `return` of the missing-segment branch
(the one spot where `get_response` returns without saving the turn)? -/
def missing_segment_return (classify : String → String) (a : VoiAssistant)
    (query : String) : Bool :=
  a.intents.contains (classify query) &&
  a.replies.lookup (classify query) == some "RAG" &&
  !(a.indices.contains
      ((a.segment_assignments.lookup (classify query)).getD "unified"))

/-! Concrete oracles and assistant states used by witnesses and
counterexamples. -/

/-- A classifier oracle returning a label outside every vocabulary used
below. -/
def clsZ : String → String := fun _ => "zzz"

/-- A classifier oracle that always returns "refund". -/
def clsRefund : String → String := fun _ => "refund"

/-- A classifier oracle that always returns "greeting". -/
def clsGreeting : String → String := fun _ => "greeting"

/-- A RAG oracle answering from the docs. -/
def ragDocs : String → String → String := fun _ _ => "Refunds take 5 days."

/-- A RAG oracle that always answers the literal disclaimer. -/
def ragDunno : String → String → String := fun _ _ => "I don\x27t know"

/-- A role-based reply oracle. -/
def roleEcho : String → String := fun q => "role reply to " ++ q

/-- Sample assistant: one intent "greeting" with a plain static reply, a
built "unified" index, empty memory. -/
def A1 : VoiAssistant :=
  { role := "agent", intents := ["greeting"],
    replies := [("greeting", "Hello")], segment_assignments := [],
    dont_know_response := .dict [], pdf_urls := [],
    indices := ["unified"], memory := [] }

/-- C1: with the store initialized, a query whose classified intent lies
outside the declared vocabulary makes `get_response` return (not raise)
exactly the fixed fallback string. -/
theorem unknown_intent_fallback (classify : String → String)
    (ragAnswer : String → String → String) (roleReply : String → String)
    (a : VoiAssistant) (q : String)
    (hinit : a.indices.isEmpty = false)
    (hcat : a.intents.contains (classify q) = false) :
    get_response classify ragAnswer roleReply a q =
      .ok (.str "Unfortunately, I am unable to help you with that.",
        saveContext a q
          (.str "Unfortunately, I am unable to help you with that.")) := by
  have hcat' : classify q ∉ a.intents := by simpa using hcat
  simp [get_response, hinit, hcat']

/-- Witness for C1 at a concrete input. -/
theorem unknown_intent_fallback_witness :
    A1.indices.isEmpty = false ∧
    A1.intents.contains (clsZ "hi") = false ∧
    get_response clsZ ragDocs roleEcho A1 "hi" =
      .ok (.str "Unfortunately, I am unable to help you with that.",
        saveContext A1 "hi"
          (.str "Unfortunately, I am unable to help you with that.")) :=
  ⟨rfl, rfl, unknown_intent_fallback clsZ ragDocs roleEcho A1 "hi" rfl rfl⟩

/-- C6: a RAG intent whose assigned segment (default "unified") has no
built index yields the user-visible error string naming that segment, as
a normal return value (non-fatal), the state unchanged. -/
theorem rag_missing_segment (classify : String → String)
    (ragAnswer : String → String → String) (roleReply : String → String)
    (a : VoiAssistant) (q : String)
    (hinit : a.indices.isEmpty = false)
    (hcat : a.intents.contains (classify q) = true)
    (hrag : a.replies.lookup (classify q) = some "RAG")
    (hseg : a.indices.contains
      ((a.segment_assignments.lookup (classify q)).getD "unified") = false) :
    get_response classify ragAnswer roleReply a q =
      .ok (.str ("Error: No database found for segment \x27" ++
        ((a.segment_assignments.lookup (classify q)).getD "unified") ++
        "\x27"), a) := by
  have hcat' : classify q ∈ a.intents := by simpa using hcat
  have hseg' : (a.segment_assignments.lookup (classify q)).getD "unified" ∉
      a.indices := by simpa using hseg
  simp [get_response, hinit, hcat', hrag, hseg']

/-- Sample assistant: RAG intent "refund" assigned to segment "billing",
which has no built index (only "unified" was built). -/
def A6 : VoiAssistant :=
  { role := "agent", intents := ["refund"],
    replies := [("refund", "RAG")],
    segment_assignments := [("refund", "billing")],
    dont_know_response := .dict [], pdf_urls := [],
    indices := ["unified"], memory := [] }

/-- Witness for C6 at a concrete input. -/
theorem rag_missing_segment_witness :
    A6.indices.isEmpty = false ∧
    A6.intents.contains (clsRefund "q") = true ∧
    A6.replies.lookup (clsRefund "q") = some "RAG" ∧
    A6.indices.contains
      ((A6.segment_assignments.lookup (clsRefund "q")).getD "unified") = false ∧
    get_response clsRefund ragDocs roleEcho A6 "q" =
      .ok (.str ("Error: No database found for segment \x27" ++
        ((A6.segment_assignments.lookup (clsRefund "q")).getD "unified") ++
        "\x27"), A6) :=
  ⟨rfl, rfl, rfl, rfl,
    rag_missing_segment clsRefund ragDocs roleEcho A6 "q" rfl rfl rfl rfl⟩

/-- C7: with no built segment index at all, `get_response` raises the
"Assistant is not initialized." error; since the classifier oracle is
universally quantified and unused, the failure happens before any
classification. -/
theorem respond_uninitialized (classify : String → String)
    (ragAnswer : String → String → String) (roleReply : String → String)
    (a : VoiAssistant) (q : String) (h : a.indices = []) :
    get_response classify ragAnswer roleReply a q =
      .error "Assistant is not initialized." := by
  simp [get_response, h]

/-- Sample assistant: configured but never initialized (no indices). -/
def A7 : VoiAssistant :=
  { role := "agent", intents := ["greeting"],
    replies := [("greeting", "Hello")], segment_assignments := [],
    dont_know_response := .dict [], pdf_urls := [("unified", ["u1"])],
    indices := [], memory := [] }

/-- Witness for C7 at a concrete input. -/
theorem respond_uninitialized_witness :
    A7.indices = [] ∧
    get_response clsGreeting ragDocs roleEcho A7 "hi" =
      .error "Assistant is not initialized." :=
  ⟨rfl, respond_uninitialized clsGreeting ragDocs roleEcho A7 "hi" rfl⟩

/-- The template string used by the static branch:
`self.replies.get(category, "I'm not sure how to respond to that.")`. -/
def static_template (a : VoiAssistant) (c : String) : String :=
  (a.replies.lookup c).getD "I\x27m not sure how to respond to that."

/-- Shared characterization of the static branch: the template containing
`{most_recent_response}` has exactly that token replaced; only a template
without it has `{most_recent_query}` replaced. -/
theorem static_branch_subst (classify : String → String)
    (ragAnswer : String → String → String) (roleReply : String → String)
    (a : VoiAssistant) (q : String)
    (hinit : a.indices.isEmpty = false)
    (hcat : a.intents.contains (classify q) = true)
    (hnotrag : a.replies.lookup (classify q) ≠ some "RAG")
    (hnotrole : a.replies.lookup (classify q) ≠ some "role_based_llm_reply") :
    (strContains (static_template a (classify q)) respTok = true →
      ∀ p, get_most_recent_response a.memory = .str p →
        get_response classify ragAnswer roleReply a q =
          .ok (.str (pyReplace (static_template a (classify q)) respTok p),
            saveContext a q
              (.str (pyReplace (static_template a (classify q)) respTok p)))) ∧
    (strContains (static_template a (classify q)) respTok = false →
      strContains (static_template a (classify q)) qryTok = true →
      ∀ p, get_most_recent_query a.memory = .str p →
        get_response classify ragAnswer roleReply a q =
          .ok (.str (pyReplace (static_template a (classify q)) qryTok p),
            saveContext a q
              (.str (pyReplace (static_template a (classify q)) qryTok p)))) := by
  have hcat' : classify q ∈ a.intents := by simpa using hcat
  constructor
  · intro htok p hp
    simp [get_response, hinit, hcat', hnotrag, hnotrole, static_template] at htok ⊢
    simp [htok, hp]
  · intro htokR htokQ p hp
    simp [get_response, hinit, hcat', hnotrag, hnotrole, static_template] at htokR htokQ ⊢
    simp [htokR, htokQ, hp]

/-- C8: on the static branch, at most one placeholder substitution happens
per call: a template containing `{most_recent_response}` has exactly that
token replaced (`{most_recent_query}` is left untouched, as the result is
literally `pyReplace template respTok p`); only a template without
`{most_recent_response}` has `{most_recent_query}` replaced. -/
theorem static_single_substitution (classify : String → String)
    (ragAnswer : String → String → String) (roleReply : String → String)
    (a : VoiAssistant) (q : String)
    (hinit : a.indices.isEmpty = false)
    (hcat : a.intents.contains (classify q) = true)
    (hnotrag : a.replies.lookup (classify q) ≠ some "RAG")
    (hnotrole : a.replies.lookup (classify q) ≠ some "role_based_llm_reply") :
    (strContains (static_template a (classify q)) respTok = true →
      ∀ p, get_most_recent_response a.memory = .str p →
        get_response classify ragAnswer roleReply a q =
          .ok (.str (pyReplace (static_template a (classify q)) respTok p),
            saveContext a q
              (.str (pyReplace (static_template a (classify q)) respTok p)))) ∧
    (strContains (static_template a (classify q)) respTok = false →
      strContains (static_template a (classify q)) qryTok = true →
      ∀ p, get_most_recent_query a.memory = .str p →
        get_response classify ragAnswer roleReply a q =
          .ok (.str (pyReplace (static_template a (classify q)) qryTok p),
            saveContext a q
              (.str (pyReplace (static_template a (classify q)) qryTok p)))) :=
  static_branch_subst classify ragAnswer roleReply a q hinit hcat hnotrag
    hnotrole

/-- Sample assistant: static intent "followup" whose template contains
BOTH placeholder tokens; memory holds one earlier turn. -/
def A8 : VoiAssistant :=
  { role := "agent", intents := ["followup"],
    replies := [("followup",
      "You said: \x7bmost_recent_response\x7d (\x7bmost_recent_query\x7d)")],
    segment_assignments := [], dont_know_response := .dict [],
    pdf_urls := [], indices := ["unified"],
    memory := [.human (.str "q0"), .ai (.str "r0")] }

/-- A classifier oracle that always returns "followup". -/
def clsFollowup : String → String := fun _ => "followup"

/-- Witness for C8: a template with both tokens only has
`{most_recent_response}` resolved; `{most_recent_query}` survives
verbatim in the output. -/
theorem static_single_substitution_witness :
    A8.indices.isEmpty = false ∧
    A8.intents.contains (clsFollowup "next") = true ∧
    A8.replies.lookup (clsFollowup "next") ≠ some "RAG" ∧
    A8.replies.lookup (clsFollowup "next") ≠ some "role_based_llm_reply" ∧
    strContains (static_template A8 (clsFollowup "next")) respTok = true ∧
    get_most_recent_response A8.memory = .str "r0" ∧
    get_response clsFollowup ragDocs roleEcho A8 "next" =
      .ok (.str "You said: r0 (\x7bmost_recent_query\x7d)",
        saveContext A8 "next"
          (.str "You said: r0 (\x7bmost_recent_query\x7d)")) :=
  ⟨rfl, rfl, by decide, by decide, rfl, rfl,
    (static_single_substitution clsFollowup ragDocs roleEcho A8 "next" rfl rfl
      (by decide) (by decide)).1 rfl "r0" rfl⟩

/-- C9: on empty memory both lookups return their sentinel strings rather
than crashing, and a static template containing a placeholder has the
sentinel substituted in verbatim. -/
theorem empty_memory_sentinel (classify : String → String)
    (ragAnswer : String → String → String) (roleReply : String → String)
    (a : VoiAssistant) (q : String) (hmem : a.memory = []) :
    get_most_recent_response a.memory =
      .str "Error: Most recent response could not be retrieved" ∧
    get_most_recent_query a.memory =
      .str "Error: Most recent query could not be retrieved" ∧
    (a.indices.isEmpty = false →
      a.intents.contains (classify q) = true →
      a.replies.lookup (classify q) ≠ some "RAG" →
      a.replies.lookup (classify q) ≠ some "role_based_llm_reply" →
      strContains (static_template a (classify q)) respTok = true →
      get_response classify ragAnswer roleReply a q =
        .ok (.str (pyReplace (static_template a (classify q)) respTok
              "Error: Most recent response could not be retrieved"),
          saveContext a q
            (.str (pyReplace (static_template a (classify q)) respTok
              "Error: Most recent response could not be retrieved")))) ∧
    (a.indices.isEmpty = false →
      a.intents.contains (classify q) = true →
      a.replies.lookup (classify q) ≠ some "RAG" →
      a.replies.lookup (classify q) ≠ some "role_based_llm_reply" →
      strContains (static_template a (classify q)) respTok = false →
      strContains (static_template a (classify q)) qryTok = true →
      get_response classify ragAnswer roleReply a q =
        .ok (.str (pyReplace (static_template a (classify q)) qryTok
              "Error: Most recent query could not be retrieved"),
          saveContext a q
            (.str (pyReplace (static_template a (classify q)) qryTok
              "Error: Most recent query could not be retrieved")))) := by
  refine ⟨by simp [get_most_recent_response, hmem, firstAI],
    by simp [get_most_recent_query, hmem, firstHuman], ?_, ?_⟩
  · intro hinit hcat hnotrag hnotrole htok
    exact (static_branch_subst classify ragAnswer roleReply a q hinit
      hcat hnotrag hnotrole).1 htok _
      (by simp [get_most_recent_response, hmem, firstAI])
  · intro hinit hcat hnotrag hnotrole htokR htokQ
    exact (static_branch_subst classify ragAnswer roleReply a q hinit
      hcat hnotrag hnotrole).2 htokR htokQ _
      (by simp [get_most_recent_query, hmem, firstHuman])

/-- Sample assistant matching the spec scenario: greeting template
"Hello, {most_recent_query}!", empty memory. -/
def A9 : VoiAssistant :=
  { role := "agent", intents := ["greeting"],
    replies := [("greeting", "Hello, \x7bmost_recent_query\x7d!")],
    segment_assignments := [], dont_know_response := .dict [],
    pdf_urls := [], indices := ["unified"], memory := [] }

/-- Witness for C9: first call on empty memory yields the sentinel
embedded in the greeting, verbatim. -/
theorem empty_memory_sentinel_witness :
    A9.memory = [] ∧
    get_response clsGreeting ragDocs roleEcho A9 "hi" =
      .ok (.str "Hello, Error: Most recent query could not be retrieved!",
        saveContext A9 "hi"
          (.str "Hello, Error: Most recent query could not be retrieved!")) :=
  ⟨rfl,
    (empty_memory_sentinel clsGreeting ragDocs roleEcho A9 "hi" rfl).2.2.2
      rfl rfl (by decide) (by decide) rfl rfl⟩

/-- C10: reply-kind dispatch is by exact string comparison on
`replies[intent]`: the role-based path runs iff the value is exactly
"role_based_llm_reply"; any other value — e.g. the variant "rag" — is
treated as a static template (a missing entry uses the default template);
and the RAG behaviours (missing-segment error string, retrieval answer)
occur exactly under the value "RAG". -/
theorem reply_kind_dispatch (classify : String → String)
    (ragAnswer : String → String → String) (roleReply : String → String)
    (a : VoiAssistant) (q : String)
    (hinit : a.indices.isEmpty = false)
    (hcat : a.intents.contains (classify q) = true) :
    (a.replies.lookup (classify q) = some "role_based_llm_reply" →
      get_response classify ragAnswer roleReply a q =
        .ok (.str (roleReply q), saveContext a q (.str (roleReply q)))) ∧
    (∀ v, a.replies.lookup (classify q) = some v → v ≠ "RAG" →
      v ≠ "role_based_llm_reply" →
      strContains v respTok = false → strContains v qryTok = false →
      get_response classify ragAnswer roleReply a q =
        .ok (.str v, saveContext a q (.str v))) ∧
    (a.replies.lookup (classify q) = none →
      get_response classify ragAnswer roleReply a q =
        .ok (.str "I\x27m not sure how to respond to that.",
          saveContext a q
            (.str "I\x27m not sure how to respond to that."))) ∧
    (a.replies.lookup (classify q) = some "RAG" →
      a.indices.contains
        ((a.segment_assignments.lookup (classify q)).getD "unified") = false →
      get_response classify ragAnswer roleReply a q =
        .ok (.str ("Error: No database found for segment \x27" ++
          ((a.segment_assignments.lookup (classify q)).getD "unified") ++
          "\x27"), a)) ∧
    (a.replies.lookup (classify q) = some "RAG" →
      a.indices.contains
        ((a.segment_assignments.lookup (classify q)).getD "unified") = true →
      ragAnswer ((a.segment_assignments.lookup (classify q)).getD "unified") q ≠
        "I don\x27t know" →
      ragAnswer ((a.segment_assignments.lookup (classify q)).getD "unified") q ≠
        "I don\x27t know." →
      get_response classify ragAnswer roleReply a q =
        .ok (.str (ragAnswer
            ((a.segment_assignments.lookup (classify q)).getD "unified") q),
          saveContext a q (.str (ragAnswer
            ((a.segment_assignments.lookup (classify q)).getD "unified") q)))) := by
  have hcat' : classify q ∈ a.intents := by simpa using hcat
  refine ⟨?_, ?_, ?_, ?_, ?_⟩
  · intro hrole
    simp [get_response, hinit, hcat', hrole]
  · intro v hv hv1 hv2 htR htQ
    simp [get_response, hinit, hcat', hv, hv1, hv2, static_template] at htR htQ ⊢
    simp [htR, htQ]
  · intro hnone
    have htR : strContains "I\x27m not sure how to respond to that." respTok
        = false := by decide
    have htQ : strContains "I\x27m not sure how to respond to that." qryTok
        = false := by decide
    simp [get_response, hinit, hcat', hnone, htR, htQ]
  · intro hrag hseg
    have hseg' : (a.segment_assignments.lookup (classify q)).getD "unified" ∉
        a.indices := by simpa using hseg
    simp [get_response, hinit, hcat', hrag, hseg']
  · intro hrag hseg h1 h2
    have hseg' : (a.segment_assignments.lookup (classify q)).getD "unified" ∈
        a.indices := by simpa using hseg
    simp [get_response, hinit, hcat', hrag, hseg', h1, h2]

/-- Sample assistant: intent "refund" whose replies value is the variant
string "rag" (NOT the exact tag "RAG"). -/
def A10 : VoiAssistant :=
  { role := "agent", intents := ["refund"],
    replies := [("refund", "rag")], segment_assignments := [],
    dont_know_response := .dict [], pdf_urls := [],
    indices := ["unified"], memory := [] }

/-- Witness for C10: the lowercase variant "rag" is not dispatched to
retrieval; it is returned as a static template, verbatim. -/
theorem reply_kind_dispatch_witness :
    A10.indices.isEmpty = false ∧
    A10.intents.contains (clsRefund "q") = true ∧
    A10.replies.lookup (clsRefund "q") = some "rag" ∧
    get_response clsRefund ragDocs roleEcho A10 "q" =
      .ok (.str "rag", saveContext A10 "q" (.str "rag")) :=
  ⟨rfl, rfl, rfl,
    (reply_kind_dispatch clsRefund ragDocs roleEcho A10 "q" rfl rfl).2.1 "rag"
      rfl (by decide) (by decide) rfl rfl⟩

/-- A fetch oracle under which only "good.pdf" downloads successfully. -/
def fetchOk3 : String → Bool := fun u => u == "good.pdf"

/-- Counterexample to C3 as stated: with two declared segments where only
the first segment's url fails, the second segment — whose own build would
succeed — is still absent from the store, because the single `try` around
the whole loop aborts on the first failure.  Initialization is not
best-effort per segment. -/
theorem init_abort_counterexample :
    (["bad.pdf"].all fetchOk3 = false) ∧
    (["good.pdf"].all fetchOk3 = true) ∧
    (init_assistant fetchOk3 [("a", ["bad.pdf"]), ("b", ["good.pdf"])]
      []).contains "b" = false := by decide

/-- C3 (amended): a segment failure is caught (never propagated —
`init_assistant` is total) and the store ends up holding exactly the
segments declared strictly before the first failing one, in order; the
failing segment and every later segment are absent. -/
theorem init_prefix_up_to_failure (fetchOk : String → Bool)
    (ps : List (String × List String)) (built : List String) :
    init_assistant fetchOk ps built =
      built ++ (ps.takeWhile (fun p => p.2.all fetchOk)).map Prod.fst := by
  induction ps generalizing built with
  | nil => simp [init_assistant]
  | cons hd tl ih =>
    obtain ⟨seg, urls⟩ := hd
    by_cases h : urls.all fetchOk = true
    · simp [init_assistant, h, ih]
    · simp only [Bool.not_eq_true] at h
      simp [init_assistant, h]

/-- The memory after `save_context` is the old memory plus the new
(human, ai) pair. -/
theorem saveContext_memory (a : VoiAssistant) (q : String) (r : PyVal) :
    (saveContext a q r).memory = a.memory ++ [.human (.str q), .ai r] :=
  rfl

/-- After `save_context`, the most recent query is the query just saved. -/
theorem get_most_recent_query_save (a : VoiAssistant) (q : String)
    (r : PyVal) :
    get_most_recent_query (saveContext a q r).memory = .str q := by
  simp [saveContext, get_most_recent_query, firstHuman]

/-- After `save_context`, the most recent response is the result just
saved. -/
theorem get_most_recent_response_save (a : VoiAssistant) (q : String)
    (r : PyVal) :
    get_most_recent_response (saveContext a q r).memory = r := by
  simp [saveContext, get_most_recent_response, firstAI]

/-- Branch analysis of `get_response`: every normal return either comes
from the missing-segment early return (state unchanged, an error string)
or saves the turn via `save_context`; and every returned value is a
string except possibly `dont_know_response`. -/
theorem get_response_ok_cases (classify : String → String)
    (ragAnswer : String → String → String) (roleReply : String → String)
    (a : VoiAssistant) (q : String) (r : PyVal) (a' : VoiAssistant)
    (hok : get_response classify ragAnswer roleReply a q = .ok (r, a')) :
    (missing_segment_return classify a q = true ∧ a' = a ∧
      ∃ s, r = .str s) ∨
    (a' = saveContext a q r ∧
      ((∃ s, r = .str s) ∨ r = a.dont_know_response)) := by
  by_cases h0 : a.indices.isEmpty
  · simp [get_response, h0] at hok
  · by_cases h1 : classify q ∈ a.intents
    · by_cases h2 : a.replies.lookup (classify q) = some "RAG"
      · by_cases h3 : (a.segment_assignments.lookup (classify q)).getD
            "unified" ∈ a.indices
        · by_cases h4 : ragAnswer ((a.segment_assignments.lookup
              (classify q)).getD "unified") q = "I don\x27t know" ∨
              ragAnswer ((a.segment_assignments.lookup
                (classify q)).getD "unified") q = "I don\x27t know."
          · simp [get_response, h0, h1, h2, h3, h4] at hok
            right
            exact ⟨by rw [← hok.1, ← hok.2], Or.inr hok.1.symm⟩
          · simp [get_response, h0, h1, h2, h3, h4] at hok
            right
            exact ⟨by rw [← hok.1, ← hok.2], Or.inl ⟨_, hok.1.symm⟩⟩
        · simp [get_response, h0, h1, h2, h3] at hok
          left
          refine ⟨?_, hok.2.symm, ⟨_, hok.1.symm⟩⟩
          simp [missing_segment_return, h1, h2, h3]
      · by_cases h5 : a.replies.lookup (classify q) =
            some "role_based_llm_reply"
        · simp [get_response, h0, h1, h2, h5] at hok
          right
          exact ⟨by rw [← hok.1, ← hok.2], Or.inl ⟨_, hok.1.symm⟩⟩
        · by_cases h6 : strContains ((a.replies.lookup (classify q)).getD
              "I\x27m not sure how to respond to that.") respTok = true
          · cases hmr : get_most_recent_response a.memory with
            | str p =>
              simp [get_response, h0, h1, h2, h5, h6, hmr] at hok
              right
              exact ⟨by rw [← hok.1, ← hok.2], Or.inl ⟨_, hok.1.symm⟩⟩
            | dict m =>
              simp [get_response, h0, h1, h2, h5, h6, hmr] at hok
          · by_cases h7 : strContains ((a.replies.lookup (classify q)).getD
                "I\x27m not sure how to respond to that.") qryTok = true
            · cases hmq : get_most_recent_query a.memory with
              | str p =>
                simp [get_response, h0, h1, h2, h5, h6, h7, hmq] at hok
                right
                exact ⟨by rw [← hok.1, ← hok.2], Or.inl ⟨_, hok.1.symm⟩⟩
              | dict m =>
                simp [get_response, h0, h1, h2, h5, h6, h7, hmq] at hok
            · simp [get_response, h0, h1, h2, h5, h6, h7] at hok
              right
              exact ⟨by rw [← hok.1, ← hok.2], Or.inl ⟨_, hok.1.symm⟩⟩
    · simp [get_response, h0, h1] at hok
      right
      exact ⟨by rw [← hok.1, ← hok.2], Or.inl ⟨_, hok.1.symm⟩⟩

/-- Counterexample to C4 as stated: a call that hits the missing-segment
early return gives back the assistant state unchanged — the (query,
result) turn is NOT appended, and afterwards `get_most_recent_query`
yields the empty-memory sentinel, not the query q1 of that call. -/
theorem respond_append_counterexample :
    get_response clsRefund ragDocs roleEcho A6 "q1" =
      .ok (.str "Error: No database found for segment \x27billing\x27", A6) ∧
    get_most_recent_query A6.memory =
      .str "Error: Most recent query could not be retrieved" :=
  ⟨rfl, rfl⟩

/-- C4 (amended): every `get_response` call that returns normally and does
not hit the missing-segment early return appends its (query, result) turn
before returning; hence after the Nth such call (from any prior state)
`get_most_recent_query` is qN and `get_most_recent_response` is the Nth
returned result. -/
theorem respond_appends_turn (classify : String → String)
    (ragAnswer : String → String → String) (roleReply : String → String)
    (a : VoiAssistant) (q : String) (r : PyVal) (a' : VoiAssistant)
    (hok : get_response classify ragAnswer roleReply a q = .ok (r, a'))
    (hms : missing_segment_return classify a q = false) :
    a'.memory = a.memory ++ [.human (.str q), .ai r] ∧
    get_most_recent_query a'.memory = .str q ∧
    get_most_recent_response a'.memory = r := by
  rcases get_response_ok_cases classify ragAnswer roleReply a q r a' hok with
    ⟨hm, _, _⟩ | ⟨ha, _⟩
  · rw [hms] at hm
    cases hm
  · subst ha
    exact ⟨rfl, get_most_recent_query_save a q r,
      get_most_recent_response_save a q r⟩

/-- Witness for the amended C4 at a concrete input. -/
theorem respond_appends_turn_witness :
    get_response clsGreeting ragDocs roleEcho A1 "hi" =
      .ok (.str "Hello", saveContext A1 "hi" (.str "Hello")) ∧
    missing_segment_return clsGreeting A1 "hi" = false ∧
    ((saveContext A1 "hi" (.str "Hello")).memory =
        A1.memory ++ [.human (.str "hi"), .ai (.str "Hello")] ∧
      get_most_recent_query (saveContext A1 "hi" (.str "Hello")).memory =
        .str "hi" ∧
      get_most_recent_response (saveContext A1 "hi" (.str "Hello")).memory =
        .str "Hello") :=
  ⟨rfl, rfl,
    respond_appends_turn clsGreeting ragDocs roleEcho A1 "hi" _ _ rfl rfl⟩

/-- Sample assistant: RAG intent "refund", unified index built, no
`dont_know_response` configured (so the field is the empty dict). -/
def A5 : VoiAssistant :=
  { mkVoiAssistant "agent" ["refund"] [("refund", "RAG")] []
      (.list ["u.pdf"]) none with
    indices := ["unified"] }

/-- Counterexample to C5 as stated: when the RAG answer is exactly
"I don't know" and no `dont_know_response` was configured, the returned
value is the empty dict — not a string. -/
theorem resolve_nonstring_counterexample :
    A5.dont_know_response = .dict [] ∧
    get_response clsRefund ragDunno roleEcho A5 "q" =
      .ok (.dict [], saveContext A5 "q" (.dict [])) ∧
    isStr (.dict []) = false :=
  ⟨rfl, rfl, rfl⟩

/-- C5 (amended): every normally returned value is a string, except that
the RAG don't-know substitution returns the `dont_know_response` value
verbatim (which may be a dict; the empty dict when unconfigured). -/
theorem resolve_result_shape (classify : String → String)
    (ragAnswer : String → String → String) (roleReply : String → String)
    (a : VoiAssistant) (q : String) (r : PyVal) (a' : VoiAssistant)
    (hok : get_response classify ragAnswer roleReply a q = .ok (r, a')) :
    (∃ s, r = .str s) ∨ r = a.dont_know_response := by
  rcases get_response_ok_cases classify ragAnswer roleReply a q r a' hok with
    ⟨_, _, hs⟩ | ⟨_, h⟩
  · exact Or.inl hs
  · exact h

/-- Witness for the amended C5 at a concrete input. -/
theorem resolve_result_shape_witness :
    get_response clsRefund ragDunno roleEcho A5 "q" =
      .ok (.dict [], saveContext A5 "q" (.dict [])) ∧
    ((∃ s, PyVal.dict [] = PyVal.str s) ∨
      PyVal.dict [] = A5.dont_know_response) :=
  ⟨rfl, resolve_result_shape clsRefund ragDunno roleEcho A5 "q" _ _ rfl⟩

/-- Sample assistant: RAG intent "refund" with a per-intent
`dont_know_response` mapping configured, unified index built. -/
def A2 : VoiAssistant :=
  { mkVoiAssistant "agent" ["refund"] [("refund", "RAG")] []
      (.list ["u.pdf"])
      (some (.dict [("refund", "Sorry, our docs do not cover that.")])) with
    indices := ["unified"] }

/-- C2 failing input (`result = self.dont_know_response`): when the RAG
answer is exactly "I don't know", the code returns the ENTIRE configured
mapping object — a dict, not the per-intent string the mapping holds for
this intent, and not any string at all. -/
theorem dont_know_returns_mapping :
    A2.dont_know_response =
      .dict [("refund", "Sorry, our docs do not cover that.")] ∧
    get_response clsRefund ragDunno roleEcho A2 "can I get a refund" =
      .ok (.dict [("refund", "Sorry, our docs do not cover that.")],
        saveContext A2 "can I get a refund"
          (.dict [("refund", "Sorry, our docs do not cover that.")])) ∧
    isStr (.dict [("refund", "Sorry, our docs do not cover that.")]) =
      false :=
  ⟨rfl, rfl, rfl⟩

end Voibot
